import Mathlib

/-!
A shallow embedding of the goal-progress and analytics core of the
athlete-edge repository (server/models/Goal.js, server/models/Stat.js and
the report/analytics helpers of the reports route), together with theorems
checking the specification's claims about it.

JavaScript numbers are modelled as rationals (ℚ); dates as integer epoch
milliseconds (ℤ); Mongoose ObjectIds as ℕ.  Summation by
`reduce((s, x) => s + f(x), 0)` is modelled as the sum of the mapped list,
which agrees with the left fold over a commutative monoid.
-/

namespace AthleteEdge

/-- JavaScript `Math.round`: round to the nearest integer, a half rounding
toward positive infinity. -/
def jsRound (q : ℚ) : ℤ := ⌊q + 1/2⌋

/-- The `targetMetric.direction` enum of Goal.js (`increase`, `decrease`,
`maintain`). -/
inductive Direction
  | increase
  | decrease
  | maintain
deriving DecidableEq, Repr

/-- The `status` enum of Goal.js. -/
inductive GoalStatus
  | active
  | completed
  | paused
  | cancelled
  | overdue
deriving DecidableEq, Repr

/-- The `targetMetric` subdocument of Goal.js (the fields read by
`updateProgress`; `name` and `unit` are inert strings and omitted). -/
structure TargetMetric where
  currentValue : ℚ
  targetValue : ℚ
  direction : Direction
deriving DecidableEq, Repr

/-- One entry of `progress.updates` in Goal.js. -/
structure ProgressUpdate where
  date : ℤ
  value : ℚ
  notes : String
  updatedBy : ℕ
deriving DecidableEq, Repr

/-- The `progress` subdocument of Goal.js (milestones are never touched by
the embedded operations and are omitted). -/
structure Progress where
  percentage : ℤ
  updates : List ProgressUpdate
deriving DecidableEq, Repr

/-- The Goal document (the fields read or written by `updateProgress` and
`calculateGoalProgress`). -/
structure Goal where
  targetMetric : TargetMetric
  targetDate : ℤ
  status : GoalStatus
  progress : Progress
  completedAt : Option ℤ
deriving DecidableEq, Repr

/-- Goal.js `goalSchema.methods.updateProgress` (lines 171-209): sets the
current value, recomputes the clamped percentage by direction, rounds it,
appends an update entry, then runs the completed check followed by the
overdue check.  `now` stands for the `new Date()` calls of the method. -/
def updateProgress (g : Goal) (now : ℤ) (newValue : ℚ) (notes : String)
    (updatedBy : ℕ) : Goal :=
  let tm : TargetMetric := { g.targetMetric with currentValue := newValue }
  let currentValue := tm.currentValue
  let targetValue := tm.targetValue
  let percentage : ℚ :=
    match tm.direction with
    | .increase => min 100 ((currentValue / targetValue) * 100)
    | .decrease => min 100 (((targetValue - currentValue) / targetValue) * 100)
    | .maintain =>
        let difference := |currentValue - targetValue|
        max 0 (100 - (difference / targetValue) * 100)
  let g1 : Goal :=
    { g with
      targetMetric := tm
      progress :=
        { percentage := jsRound percentage
          updates := g.progress.updates ++
            [{ date := now, value := newValue, notes := notes,
               updatedBy := updatedBy }] } }
  let g2 : Goal :=
    if g1.progress.percentage ≥ 100 ∧ g1.status = .active then
      { g1 with status := .completed, completedAt := some now }
    else g1
  if now > g2.targetDate ∧ g2.status = .active then
    { g2 with status := .overdue }
  else g2

/-- Result record of `calculateGoalProgress` in the reports route: for an
empty goal list the source returns an object without a `totalGoals`
property, hence that field is an `Option`. -/
structure GoalProgress where
  totalGoals : Option ℕ
  activeGoals : ℕ
  completedGoals : ℕ
  averageProgress : ℤ
deriving DecidableEq, Repr

/-- Reports route `calculateGoalProgress` (lines 476-491): an empty list
yields `{averageProgress: 0, completedGoals: 0, activeGoals: 0}` (no
`totalGoals`); otherwise counts by status and rounds the mean progress
percentage. -/
def calculateGoalProgress (goals : List Goal) : GoalProgress :=
  if goals.length = 0 then
    { totalGoals := none, activeGoals := 0, completedGoals := 0,
      averageProgress := 0 }
  else
    let activeGoals := goals.filter fun g => decide (g.status = .active)
    let completedGoals := goals.filter fun g => decide (g.status = .completed)
    let averageProgress : ℚ :=
      ((goals.map fun g => (g.progress.percentage : ℚ)).sum) / goals.length
    { totalGoals := some goals.length
      activeGoals := activeGoals.length
      completedGoals := completedGoals.length
      averageProgress := jsRound averageProgress }

/-- The `basketball` counter bag of Stat.js (the counters read by the
embedded virtuals and analytics; the remaining counters — steals, blocks,
turnovers, fouls, rebound splits — are never read by them and are
omitted).  Every counter defaults to 0 in the schema, so each is a plain
number. -/
structure BasketballStats where
  points : ℚ
  rebounds : ℚ
  assists : ℚ
  fieldGoalsMade : ℚ
  fieldGoalsAttempted : ℚ
  threePointersMade : ℚ
  threePointersAttempted : ℚ
  freeThrowsMade : ℚ
  freeThrowsAttempted : ℚ
deriving DecidableEq, Repr

/-- The `soccer` counter bag of Stat.js (counters read by the embedded
operations). -/
structure SoccerStats where
  goals : ℚ
  assists : ℚ
  shots : ℚ
  passes : ℚ
  passesCompleted : ℚ
deriving DecidableEq, Repr

/-- The `football` counter bag of Stat.js (counters read by the embedded
virtual). -/
structure FootballStats where
  passingAttempts : ℚ
  passingCompletions : ℚ
deriving DecidableEq, Repr

/-- A Stat document of Stat.js: one per-sport counter bag each (sub-objects
all exist with zero defaults in the schema). -/
structure Stat where
  basketball : BasketballStats
  soccer : SoccerStats
  football : FootballStats
deriving DecidableEq, Repr

/-- Stat.js virtual `basketball.fieldGoalPercentage` (lines 127-132). -/
def fieldGoalPercentage (s : Stat) : ℚ :=
  if s.basketball.fieldGoalsAttempted > 0 then
    (s.basketball.fieldGoalsMade / s.basketball.fieldGoalsAttempted) * 100
  else 0

/-- Stat.js virtual `basketball.threePointPercentage` (lines 134-139). -/
def threePointPercentage (s : Stat) : ℚ :=
  if s.basketball.threePointersAttempted > 0 then
    (s.basketball.threePointersMade / s.basketball.threePointersAttempted) * 100
  else 0

/-- Stat.js virtual `basketball.freeThrowPercentage` (lines 141-146). -/
def freeThrowPercentage (s : Stat) : ℚ :=
  if s.basketball.freeThrowsAttempted > 0 then
    (s.basketball.freeThrowsMade / s.basketball.freeThrowsAttempted) * 100
  else 0

/-- Stat.js virtual `soccer.passAccuracy` (lines 148-153). -/
def passAccuracy (s : Stat) : ℚ :=
  if s.soccer.passes > 0 then
    (s.soccer.passesCompleted / s.soccer.passes) * 100
  else 0

/-- Stat.js virtual `football.passCompletionPercentage` (lines 155-160). -/
def passCompletionPercentage (s : Stat) : ℚ :=
  if s.football.passingAttempts > 0 then
    (s.football.passingCompletions / s.football.passingAttempts) * 100
  else 0

/-- Accumulator of the `bestGame` reduce.  The source seeds the reduce with
the literal `\x7b basketball: \x7b points: 0 \x7d \x7d` and compares
`stat.basketball.points > best.points`: the TOP-LEVEL `points` property,
which is absent (`undefined`) both on the seed object and on every Stat
document (those only carry `basketball.points`).  The accumulator therefore
records the top-level `points` property as an `Option` (`none` =
`undefined`), the nested `basketball.points`, and which record it is
(`none` while it is still the seed sentinel). -/
structure BestGameAcc where
  points : Option ℚ
  basketballPoints : ℚ
  record : Option Stat
deriving DecidableEq, Repr

/-- The seed `\x7b basketball: \x7b points: 0 \x7d \x7d` of the `bestGame`
reduce: no top-level `points`, `basketball.points = 0`, not a record. -/
def bestGameSeed : BestGameAcc :=
  { points := none, basketballPoints := 0, record := none }

/-- JavaScript `a > b` where `b` may be `undefined`: comparison with
`undefined` is `NaN`-like and yields `false`. -/
def jsGtOpt (a : ℚ) (b : Option ℚ) : Prop :=
  match b with
  | none => False
  | some q => a > q

instance (a : ℚ) (b : Option ℚ) : Decidable (jsGtOpt a b) := by
  unfold jsGtOpt; cases b <;> infer_instance

/-- One step of the `bestGame` reduce (lines 458-461 of the reports route):
`stat.basketball.points > best.points ? stat : best`.  A Stat document that
becomes the accumulator still has no top-level `points` property. -/
def bestGameStep (best : BestGameAcc) (stat : Stat) : BestGameAcc :=
  if jsGtOpt stat.basketball.points best.points then
    { points := none, basketballPoints := stat.basketball.points,
      record := some stat }
  else best

/-- Result record of `calculateAnalytics`: only `totalGames` is present on
every branch; each per-sport field is present (`some`) exactly on its
sport's branch. -/
structure Analytics where
  totalGames : ℕ
  averagePoints : Option ℚ
  averageRebounds : Option ℚ
  averageAssists : Option ℚ
  averageFieldGoalPercentage : Option ℚ
  averageThreePointPercentage : Option ℚ
  averageFreeThrowPercentage : Option ℚ
  bestGame : Option BestGameAcc
  totalGoals : Option ℚ
  totalAssists : Option ℚ
  averagePassAccuracy : Option ℚ
  averageShots : Option ℚ
deriving DecidableEq, Repr

/-- The all-absent analytics record `\x7b totalGames: 0 \x7d` returned for
an empty record list. -/
def emptyAnalytics : Analytics :=
  { totalGames := 0, averagePoints := none, averageRebounds := none,
    averageAssists := none, averageFieldGoalPercentage := none,
    averageThreePointPercentage := none, averageFreeThrowPercentage := none,
    bestGame := none, totalGoals := none, totalAssists := none,
    averagePassAccuracy := none, averageShots := none }

/-- Reports route `calculateAnalytics` (lines 444-474): empty list short
circuits to `\x7b totalGames: 0 \x7d`; basketball and soccer get their
fixed field sets of averages/totals (per-record percentages through the
Stat.js virtuals); any other sport degrades to `\x7b totalGames \x7d`. -/
def calculateAnalytics (stats : List Stat) (sport : String) : Analytics :=
  if stats.length = 0 then
    emptyAnalytics
  else if sport = "basketball" then
    { emptyAnalytics with
      totalGames := stats.length
      averagePoints :=
        some (((stats.map fun s => s.basketball.points).sum) / stats.length)
      averageRebounds :=
        some (((stats.map fun s => s.basketball.rebounds).sum) / stats.length)
      averageAssists :=
        some (((stats.map fun s => s.basketball.assists).sum) / stats.length)
      averageFieldGoalPercentage :=
        some (((stats.map fieldGoalPercentage).sum) / stats.length)
      averageThreePointPercentage :=
        some (((stats.map threePointPercentage).sum) / stats.length)
      averageFreeThrowPercentage :=
        some (((stats.map freeThrowPercentage).sum) / stats.length)
      bestGame := some (stats.foldl bestGameStep bestGameSeed) }
  else if sport = "soccer" then
    { emptyAnalytics with
      totalGames := stats.length
      totalGoals := some ((stats.map fun s => s.soccer.goals).sum)
      totalAssists := some ((stats.map fun s => s.soccer.assists).sum)
      averagePassAccuracy :=
        some (((stats.map passAccuracy).sum) / stats.length)
      averageShots :=
        some (((stats.map fun s => s.soccer.shots).sum) / stats.length) }
  else
    { emptyAnalytics with totalGames := stats.length }

/-- One entry of `teamReport.athletes` as consumed by
`calculateTeamAverages`: `totalGames`, the goal rollup's `averageProgress`,
and the per-sport analytics fields (each optional, read through `|| 0`). -/
structure AthleteEntry where
  totalGames : ℚ
  goalsAverageProgress : ℚ
  averagePoints : Option ℚ
  averageRebounds : Option ℚ
  averageAssists : Option ℚ
  totalGoals : Option ℚ
  totalAssists : Option ℚ
deriving DecidableEq, Repr

/-- Result record of `calculateTeamAverages`: the empty-list branch returns
the object literal `\x7b \x7d`, so every field is optional. -/
structure TeamAverages where
  totalGames : Option ℚ
  averageGoalProgress : Option ℚ
  averagePoints : Option ℚ
  averageRebounds : Option ℚ
  averageAssists : Option ℚ
  totalGoals : Option ℚ
  totalAssists : Option ℚ
deriving DecidableEq, Repr

/-- The empty object `\x7b \x7d` returned by `calculateTeamAverages` for an
empty athlete list. -/
def emptyTeamAverages : TeamAverages :=
  { totalGames := none, averageGoalProgress := none, averagePoints := none,
    averageRebounds := none, averageAssists := none, totalGoals := none,
    totalAssists := none }

/-- Reports route `calculateTeamAverages` (lines 493-511): an empty athlete
list returns `\x7b \x7d`; otherwise `totalGames` and `averageGoalProgress`
are means over the athletes, and basketball/soccer add their rollups
(missing analytics fields read as 0 via `|| 0`). -/
def calculateTeamAverages (athletes : List AthleteEntry) (sport : String) :
    TeamAverages :=
  if athletes.length = 0 then emptyTeamAverages
  else
    let averages : TeamAverages :=
      { emptyTeamAverages with
        totalGames :=
          some (((athletes.map fun a => a.totalGames).sum) / athletes.length)
        averageGoalProgress :=
          some (((athletes.map fun a => a.goalsAverageProgress).sum) /
            athletes.length) }
    if sport = "basketball" then
      { averages with
        averagePoints :=
          some (((athletes.map fun a => a.averagePoints.getD 0).sum) /
            athletes.length)
        averageRebounds :=
          some (((athletes.map fun a => a.averageRebounds.getD 0).sum) /
            athletes.length)
        averageAssists :=
          some (((athletes.map fun a => a.averageAssists.getD 0).sum) /
            athletes.length) }
    else if sport = "soccer" then
      { averages with
        totalGoals := some ((athletes.map fun a => a.totalGoals.getD 0).sum)
        totalAssists :=
          some ((athletes.map fun a => a.totalAssists.getD 0).sum) }
    else averages

/-- JavaScript truthiness of `x > 0` when `x` may be `undefined` (as
`goalProgress.totalGoals > 0` is evaluated in `generateSummary`):
`undefined > 0` is `false`. -/
def jsNatGtZero (x : Option ℕ) : Prop :=
  match x with
  | none => False
  | some n => n > 0

instance (x : Option ℕ) : Decidable (jsNatGtZero x) := by
  unfold jsNatGtZero; cases x <;> infer_instance

/-- Rendering of `x.toFixed(1)` on rationals: one fractional digit, a half
rounded up.  Exact IEEE-754 `toFixed` digit artifacts are out of scope; no
theorem below depends on the digits of this rendering. -/
def toFixed1 (q : ℚ) : String :=
  let m : ℤ := ⌊q * 10 + 1/2⌋
  toString (m / 10) ++ "." ++ toString (m % 10).natAbs

/-- Rendering of `x?.toFixed(1) || 0` inside a template literal: the number
0 when the field is absent, else the one-decimal rendering. -/
def fmtAvg (x : Option ℚ) : String :=
  match x with
  | none => "0"
  | some q => toFixed1 q

/-- Rendering of `x || 0` inside a template literal for a total counter. -/
def fmtTotal (x : Option ℚ) : String :=
  match x with
  | none => toString (0 : ℚ)
  | some q => toString q

/-- The games-played sentence of `generateSummary` (line 518). -/
def gamesPlayedSentence (analytics : Analytics) : String :=
  let n := analytics.totalGames
  s!"Played {n} games in the reporting period."

/-- The basketball stat sentence of `generateSummary` (line 521). -/
def basketballSentence (analytics : Analytics) : String :=
  let p := fmtAvg analytics.averagePoints
  let r := fmtAvg analytics.averageRebounds
  let a := fmtAvg analytics.averageAssists
  s!"Averaged {p} points, {r} rebounds, and {a} assists per game."

/-- The soccer stat sentence of `generateSummary` (line 523). -/
def soccerSentence (analytics : Analytics) : String :=
  let g := fmtTotal analytics.totalGoals
  let a := fmtTotal analytics.totalAssists
  s!"Scored {g} goals and provided {a} assists."

/-- The goals-in-progress sentence of `generateSummary` (line 529). -/
def activeGoalsSentence (goalProgress : GoalProgress) : String :=
  let a := goalProgress.activeGoals
  let p := goalProgress.averageProgress
  s!"Working on {a} active goals with {p}% average progress."

/-- The completed-goals sentence of `generateSummary` (line 531). -/
def completedGoalsSentence (goalProgress : GoalProgress) : String :=
  let c := goalProgress.completedGoals
  s!"Successfully completed {c} goals."

/-- Reports route `generateSummary` (lines 513-536): pushes sentences onto
an array under the source's conditions (sport sentences nested under the
games-played condition, the completed-goals sentence nested under the
goals condition) and joins them with single spaces. -/
def generateSummary (analytics : Analytics) (goalProgress : GoalProgress)
    (sport : String) : String :=
  let summary : List String := []
  let summary :=
    if analytics.totalGames > 0 then
      let s1 := summary ++ [gamesPlayedSentence analytics]
      if sport = "basketball" then s1 ++ [basketballSentence analytics]
      else if sport = "soccer" then s1 ++ [soccerSentence analytics]
      else s1
    else summary
  let summary :=
    if jsNatGtZero goalProgress.totalGoals then
      let s2 := summary ++ [activeGoalsSentence goalProgress]
      if goalProgress.completedGoals > 0 then
        s2 ++ [completedGoalsSentence goalProgress]
      else s2
    else summary
  String.intercalate " " summary

/-! Concrete instances used by evaluation theorems and witnesses. -/

/-- An active increase-direction goal with target 50, mirroring the spec's
example scenario. -/
def wGoal : Goal where
  targetMetric := { currentValue := 0, targetValue := 50, direction := .increase }
  targetDate := 1000
  status := .active
  progress := { percentage := 0, updates := [] }
  completedAt := none

/-- An active decrease-direction goal with target 10. -/
def decGoal : Goal where
  targetMetric := { currentValue := 0, targetValue := 10, direction := .decrease }
  targetDate := 1000
  status := .active
  progress := { percentage := 0, updates := [] }
  completedAt := none

/-- All-zero soccer counters. -/
def zeroSoccer : SoccerStats :=
  { goals := 0, assists := 0, shots := 0, passes := 0, passesCompleted := 0 }

/-- All-zero football counters. -/
def zeroFootball : FootballStats :=
  { passingAttempts := 0, passingCompletions := 0 }

/-- Game A of the spec's example scenario: 20 points, 8/16 field goals. -/
def gameA : Stat where
  basketball :=
    { points := 20, rebounds := 5, assists := 3, fieldGoalsMade := 8,
      fieldGoalsAttempted := 16, threePointersMade := 0,
      threePointersAttempted := 0, freeThrowsMade := 0,
      freeThrowsAttempted := 0 }
  soccer := zeroSoccer
  football := zeroFootball

/-- Game B of the spec's example scenario: 30 points, 10/20 field goals. -/
def gameB : Stat where
  basketball :=
    { points := 30, rebounds := 7, assists := 4, fieldGoalsMade := 10,
      fieldGoalsAttempted := 20, threePointersMade := 0,
      threePointersAttempted := 0, freeThrowsMade := 0,
      freeThrowsAttempted := 0 }
  soccer := zeroSoccer
  football := zeroFootball

/-- C4: every call to `updateProgress` appends exactly one entry
`[date = now, value = newValue, notes, updatedBy]` to `progress.updates`
and leaves every previously recorded entry unchanged: the post-state log is
the old log with the one new entry at the end. -/
theorem updateProgress_appends_one_update (g : Goal) (now : ℤ) (v : ℚ)
    (notes : String) (u : ℕ) :
    (updateProgress g now v notes u).progress.updates =
      g.progress.updates ++
        [{ date := now, value := v, notes := notes, updatedBy := u }] := by
  unfold updateProgress
  dsimp only
  split_ifs <;> rfl

/-- C7: `calculateAnalytics` applied to an empty record list returns the
summary whose only present field is `totalGames = 0` (all per-sport fields
absent), for every sport, as a normal result. -/
theorem calculateAnalytics_nil (sport : String) :
    calculateAnalytics [] sport = emptyAnalytics := rfl

/-- C2 evaluation: a decrease-direction goal with target 10 updated to the
value 20 receives `progress.percentage = -100`, outside [0,100]: only the
upper bound is clamped for increase/decrease, contradicting both the
spec's clamping claim and the schema's `min: 0` bound on
`progress.percentage`. -/
theorem updateProgress_decrease_overshoot_negative :
    (updateProgress decGoal 0 20 "" 0).progress.percentage = -100 ∧
    ¬ (0 ≤ (updateProgress decGoal 0 20 "" 0).progress.percentage) := by
  have h : (updateProgress decGoal 0 20 "" 0).progress.percentage = -100 := by
    unfold updateProgress decGoal
    dsimp only
    split_ifs <;> norm_num [jsRound, min_def, Int.floor_eq_iff]
  exact ⟨h, by rw [h]; decide⟩

/-- C8 evaluation: on the spec's two-game example the averages come out as
specified (`averagePoints = 25`, `averageFieldGoalPercentage = 50`), but
`bestGame` is the zero sentinel, not the 30-point record: the reduce
compares `stat.basketball.points > best.points` against the TOP-LEVEL
`points` property, which is `undefined` on the seed and on every record,
so the comparison is always false and the accumulator never leaves the
seed. -/
theorem bestGame_stuck_at_sentinel :
    (calculateAnalytics [gameA, gameB] "basketball").averagePoints =
      some 25 ∧
    (calculateAnalytics [gameA, gameB] "basketball"
      ).averageFieldGoalPercentage = some 50 ∧
    (calculateAnalytics [gameA, gameB] "basketball").bestGame =
      some bestGameSeed ∧
    bestGameSeed.record = none ∧
    bestGameSeed.basketballPoints = 0 := by
  refine ⟨?_, ?_, ?_, rfl, rfl⟩ <;>
    simp [calculateAnalytics, gameA, gameB, fieldGoalPercentage,
      bestGameStep, bestGameSeed, jsGtOpt] <;>
    norm_num

/-- C1: for every goal with a non-zero `targetMetric.targetValue`,
`updateProgress` sets `targetMetric.currentValue` to the new value and sets
`progress.percentage` to the rounded value of the direction-dependent
clamped ratio (`min` with 100 for increase and decrease, `max` with 0 for
maintain). -/
theorem updateProgress_percentage_formula (g : Goal) (now : ℤ) (v : ℚ)
    (notes : String) (u : ℕ) (_htv : g.targetMetric.targetValue ≠ 0) :
    (updateProgress g now v notes u).targetMetric.currentValue = v ∧
    (updateProgress g now v notes u).progress.percentage =
      jsRound
        (match g.targetMetric.direction with
         | .increase => min 100 (v / g.targetMetric.targetValue * 100)
         | .decrease =>
             min 100 ((g.targetMetric.targetValue - v) /
               g.targetMetric.targetValue * 100)
         | .maintain =>
             max 0 (100 - |v - g.targetMetric.targetValue| /
               g.targetMetric.targetValue * 100)) := by
  unfold updateProgress
  dsimp only
  split_ifs <;> exact ⟨rfl, rfl⟩

/-- Witness for C1: the spec's example — increase-direction goal with
target 50 updated to 25 gets `currentValue = 25` and `percentage = 50`. -/
theorem updateProgress_percentage_formula_witness :
    (updateProgress wGoal 0 25 "" 0).targetMetric.currentValue = 25 ∧
    (updateProgress wGoal 0 25 "" 0).progress.percentage = 50 := by
  have h := updateProgress_percentage_formula wGoal 0 25 "" 0 (by
    norm_num [wGoal])
  refine ⟨h.1, h.2.trans ?_⟩
  norm_num [wGoal, jsRound, min_def, Int.floor_eq_iff]

/-- C3: `updateProgress` moves an `active` goal to `completed` (recording
`completedAt = now`) exactly when the recomputed percentage reaches 100;
otherwise an `active` goal becomes `overdue` exactly when `now` exceeds
`targetDate` (the completed check runs first, so reaching 100% on or past
the due date ends `completed`); a goal whose status was not `active` keeps
its status unchanged. -/
theorem updateProgress_status_transitions (g : Goal) (now : ℤ) (v : ℚ)
    (notes : String) (u : ℕ) :
    (g.status = .active →
      ((100 ≤ (updateProgress g now v notes u).progress.percentage →
         (updateProgress g now v notes u).status = .completed ∧
         (updateProgress g now v notes u).completedAt = some now) ∧
       ((updateProgress g now v notes u).progress.percentage < 100 →
         (g.targetDate < now →
            (updateProgress g now v notes u).status = .overdue) ∧
         (¬ g.targetDate < now →
            (updateProgress g now v notes u).status = .active)))) ∧
    (g.status ≠ .active →
      (updateProgress g now v notes u).status = g.status) := by
  unfold updateProgress
  dsimp only
  split_ifs with h1 h2 h3 <;> dsimp only at *
  · simp at h2
  · exact ⟨fun hst => ⟨fun hp => ⟨rfl, rfl⟩, fun hp => absurd h1.1 (by omega)⟩,
      fun hst => absurd h1.2 hst⟩
  · exact ⟨fun hst => ⟨fun hp => absurd ⟨hp, hst⟩ h1,
      fun hp => ⟨fun hd => rfl, fun hd => absurd h3.1 (by omega)⟩⟩,
      fun hst => absurd h3.2 hst⟩
  · exact ⟨fun hst => ⟨fun hp => absurd ⟨hp, hst⟩ h1,
      fun hp => ⟨fun hd => absurd ⟨hd, hst⟩ h3, fun hd => hst⟩⟩,
      fun hst => rfl⟩

/-- Witness for C3: the increase-direction goal with target 50, updated to
50 before its due date, ends `completed` with `completedAt` recorded. -/
theorem updateProgress_status_transitions_witness :
    (updateProgress wGoal 0 50 "" 0).status = .completed ∧
    (updateProgress wGoal 0 50 "" 0).completedAt = some 0 := by
  refine ((updateProgress_status_transitions wGoal 0 50 "" 0).1 rfl).1 ?_
  have hp : (updateProgress wGoal 0 50 "" 0).progress.percentage = 100 := by
    unfold updateProgress wGoal
    dsimp only
    split_ifs <;> norm_num [jsRound, min_def, Int.floor_eq_iff]
  rw [hp]

/-- C5 counterexample: `calculateTeamAverages` applied to the empty athlete
list returns the empty object (every field absent, `totalGames` included)
— well-defined behavior with no division at all, refuting the claim that
the division by `athletes.length` is unconditional and that the empty-list
behavior is an undefined division by zero. -/
theorem calculateTeamAverages_nil_defined :
    calculateTeamAverages [] "basketball" = emptyTeamAverages ∧
    (calculateTeamAverages [] "basketball").totalGames = none := ⟨rfl, rfl⟩

/-- C5 amended: `calculateTeamAverages` returns the empty object for an
empty athlete list, and only for non-empty lists computes `totalGames` and
`averageGoalProgress` as sums over the athletes divided by
`athletes.length`. -/
theorem calculateTeamAverages_guarded (athletes : List AthleteEntry)
    (sport : String) :
    (athletes.length = 0 →
      calculateTeamAverages athletes sport = emptyTeamAverages) ∧
    (athletes.length ≠ 0 →
      (calculateTeamAverages athletes sport).totalGames =
        some (((athletes.map fun a => a.totalGames).sum) /
          athletes.length) ∧
      (calculateTeamAverages athletes sport).averageGoalProgress =
        some (((athletes.map fun a => a.goalsAverageProgress).sum) /
          athletes.length)) := by
  constructor
  · intro h
    unfold calculateTeamAverages
    rw [if_pos h]
  · intro h
    unfold calculateTeamAverages
    rw [if_neg h]
    dsimp only
    split_ifs <;> exact ⟨rfl, rfl⟩

/-- One concrete athlete entry: 3 games, 40% average goal progress. -/
def entryA : AthleteEntry :=
  { totalGames := 3, goalsAverageProgress := 40, averagePoints := some 25,
    averageRebounds := none, averageAssists := none, totalGoals := none,
    totalAssists := none }

/-- Witness for the amended C5: the empty list yields the empty object and
a one-athlete list yields its own values as the averages. -/
theorem calculateTeamAverages_guarded_witness :
    calculateTeamAverages [] "soccer" = emptyTeamAverages ∧
    (calculateTeamAverages [entryA] "basketball").totalGames = some 3 ∧
    (calculateTeamAverages [entryA] "basketball").averageGoalProgress =
      some 40 := by
  refine ⟨(calculateTeamAverages_guarded [] "soccer").1 rfl, ?_, ?_⟩ <;>
    have h := (calculateTeamAverages_guarded [entryA] "basketball").2
      (by norm_num)
  · exact h.1.trans (by norm_num [entryA])
  · exact h.2.trans (by norm_num [entryA])

/-- Both branches of a guarded `made / attempted` display ratio: the ratio
when the attempt counter is positive, 0 when it is zero. -/
theorem ratioGuard (made att : ℚ) :
    (att > 0 → (if att > 0 then made / att * 100 else 0) =
      made / att * 100) ∧
    (att = 0 → (if att > 0 then made / att * 100 else 0) = 0) :=
  ⟨fun h => if_pos h, fun h => by rw [h]; norm_num⟩

/-- C6: each derived per-record ratio of Stat.js equals
`made / attempted * 100` when its attempt counter is positive and equals 0
when the attempt counter is 0, for all five virtuals (field-goal,
three-point and free-throw percentages, pass accuracy, pass-completion
percentage), so every record contributes a number to the averaged
percentage fields. -/
theorem stat_ratio_virtuals (s : Stat) :
    ((s.basketball.fieldGoalsAttempted > 0 →
        fieldGoalPercentage s =
          s.basketball.fieldGoalsMade / s.basketball.fieldGoalsAttempted *
            100) ∧
     (s.basketball.fieldGoalsAttempted = 0 → fieldGoalPercentage s = 0)) ∧
    ((s.basketball.threePointersAttempted > 0 →
        threePointPercentage s =
          s.basketball.threePointersMade /
            s.basketball.threePointersAttempted * 100) ∧
     (s.basketball.threePointersAttempted = 0 →
        threePointPercentage s = 0)) ∧
    ((s.basketball.freeThrowsAttempted > 0 →
        freeThrowPercentage s =
          s.basketball.freeThrowsMade / s.basketball.freeThrowsAttempted *
            100) ∧
     (s.basketball.freeThrowsAttempted = 0 → freeThrowPercentage s = 0)) ∧
    ((s.soccer.passes > 0 →
        passAccuracy s = s.soccer.passesCompleted / s.soccer.passes * 100) ∧
     (s.soccer.passes = 0 → passAccuracy s = 0)) ∧
    ((s.football.passingAttempts > 0 →
        passCompletionPercentage s =
          s.football.passingCompletions / s.football.passingAttempts *
            100) ∧
     (s.football.passingAttempts = 0 →
        passCompletionPercentage s = 0)) :=
  ⟨ratioGuard s.basketball.fieldGoalsMade s.basketball.fieldGoalsAttempted,
   ratioGuard s.basketball.threePointersMade
     s.basketball.threePointersAttempted,
   ratioGuard s.basketball.freeThrowsMade s.basketball.freeThrowsAttempted,
   ratioGuard s.soccer.passesCompleted s.soccer.passes,
   ratioGuard s.football.passingCompletions s.football.passingAttempts⟩

/-- A record with every attempt counter at zero. -/
def gameZ : Stat where
  basketball :=
    { points := 0, rebounds := 0, assists := 0, fieldGoalsMade := 0,
      fieldGoalsAttempted := 0, threePointersMade := 0,
      threePointersAttempted := 0, freeThrowsMade := 0,
      freeThrowsAttempted := 0 }
  soccer := zeroSoccer
  football := zeroFootball

/-- A record with every attempt counter positive. -/
def gameP : Stat where
  basketball :=
    { points := 20, rebounds := 5, assists := 3, fieldGoalsMade := 8,
      fieldGoalsAttempted := 16, threePointersMade := 2,
      threePointersAttempted := 4, freeThrowsMade := 5,
      freeThrowsAttempted := 10 }
  soccer :=
    { goals := 1, assists := 2, shots := 4, passes := 10,
      passesCompleted := 8 }
  football := { passingAttempts := 20, passingCompletions := 10 }

/-- Witness for C6: both branches of every virtual, on a record with all
attempt counters positive and a record with all attempt counters zero. -/
theorem stat_ratio_virtuals_witness :
    fieldGoalPercentage gameP =
      gameP.basketball.fieldGoalsMade /
        gameP.basketball.fieldGoalsAttempted * 100 ∧
    threePointPercentage gameP =
      gameP.basketball.threePointersMade /
        gameP.basketball.threePointersAttempted * 100 ∧
    freeThrowPercentage gameP =
      gameP.basketball.freeThrowsMade /
        gameP.basketball.freeThrowsAttempted * 100 ∧
    passAccuracy gameP =
      gameP.soccer.passesCompleted / gameP.soccer.passes * 100 ∧
    passCompletionPercentage gameP =
      gameP.football.passingCompletions /
        gameP.football.passingAttempts * 100 ∧
    fieldGoalPercentage gameZ = 0 ∧
    threePointPercentage gameZ = 0 ∧
    freeThrowPercentage gameZ = 0 ∧
    passAccuracy gameZ = 0 ∧
    passCompletionPercentage gameZ = 0 := by
  have hp := stat_ratio_virtuals gameP
  have hz := stat_ratio_virtuals gameZ
  exact ⟨hp.1.1 (by norm_num [gameP]), hp.2.1.1 (by norm_num [gameP]),
    hp.2.2.1.1 (by norm_num [gameP]), hp.2.2.2.1.1 (by norm_num [gameP]),
    hp.2.2.2.2.1 (by norm_num [gameP]),
    hz.1.2 (by norm_num [gameZ]), hz.2.1.2 (by norm_num [gameZ]),
    hz.2.2.1.2 (by norm_num [gameZ]),
    hz.2.2.2.1.2 (by norm_num [gameZ, zeroSoccer]),
    hz.2.2.2.2.2 (by norm_num [gameZ, zeroFootball])⟩

/-- C9: the summary string is the single-space join of conditionally
included sentences: the games-played sentence (with the sport-specific
stat sentence alongside it for basketball/soccer) appears iff
`totalGames > 0`, the goals-in-progress sentence appears iff
`totalGoals > 0` (evaluated JavaScript-style on the possibly-absent
field), and the completed-goals sentence appears iff `completedGoals > 0`;
an omitted sentence leaves no placeholder.  Stated for every goal-progress
record produced by `calculateGoalProgress`, for which a positive
`completedGoals` entails a present positive `totalGoals`. -/
theorem generateSummary_conditional_sentences (a : Analytics)
    (gs : List Goal) (sport : String) :
    generateSummary a (calculateGoalProgress gs) sport =
      String.intercalate " "
        ((if a.totalGames > 0 then
            gamesPlayedSentence a ::
              (if sport = "basketball" then [basketballSentence a]
               else if sport = "soccer" then [soccerSentence a]
               else [])
          else []) ++
         (if jsNatGtZero (calculateGoalProgress gs).totalGoals then
            [activeGoalsSentence (calculateGoalProgress gs)]
          else []) ++
         (if (calculateGoalProgress gs).completedGoals > 0 then
            [completedGoalsSentence (calculateGoalProgress gs)]
          else [])) := by
  unfold generateSummary
  dsimp only
  rcases gs with _ | ⟨g, gs⟩
  · simp [calculateGoalProgress, jsNatGtZero]
    split_ifs <;> rfl
  · simp [calculateGoalProgress, jsNatGtZero]
    split_ifs <;> simp [List.append_assoc]

/-- C10: `calculateGoalProgress` on the empty goal list returns the record
with `averageProgress = 0`, `completedGoals = 0`, `activeGoals = 0` and NO
`totalGoals` field; on every non-empty list it includes
`totalGoals = length` and `averageProgress` the rounded mean of the goals'
`progress.percentage`; consequently `generateSummary` omits the goals
sentences for an empty goal list because `totalGoals` is absent. -/
theorem calculateGoalProgress_empty_vs_nonempty :
    calculateGoalProgress [] =
      { totalGoals := none, activeGoals := 0, completedGoals := 0,
        averageProgress := 0 } ∧
    (∀ gs : List Goal, gs ≠ [] →
      (calculateGoalProgress gs).totalGoals = some gs.length ∧
      (calculateGoalProgress gs).averageProgress =
        jsRound (((gs.map fun g => (g.progress.percentage : ℚ)).sum) /
          gs.length)) ∧
    (∀ (a : Analytics) (sport : String),
      generateSummary a (calculateGoalProgress []) sport =
        String.intercalate " "
          (if a.totalGames > 0 then
             gamesPlayedSentence a ::
               (if sport = "basketball" then [basketballSentence a]
                else if sport = "soccer" then [soccerSentence a]
                else [])
           else [])) := by
  refine ⟨rfl, fun gs h => ?_, fun a sport => ?_⟩
  · simp [calculateGoalProgress, h]
  · unfold generateSummary
    simp [calculateGoalProgress, jsNatGtZero]
    split_ifs <;> rfl

/-- Witness for C10: a one-goal list carries `totalGoals = some 1` and the
rounded mean of its single percentage. -/
theorem calculateGoalProgress_empty_vs_nonempty_witness :
    (calculateGoalProgress [wGoal]).totalGoals = some 1 ∧
    (calculateGoalProgress [wGoal]).averageProgress = 0 := by
  have h := calculateGoalProgress_empty_vs_nonempty.2.1 [wGoal] (by simp)
  refine ⟨h.1, h.2.trans ?_⟩
  norm_num [wGoal, jsRound, Int.floor_eq_iff]

end AthleteEdge
